import Mathlib

/-!
Shallow embedding of the `datastruct` record/codec engine
(src/datastruct/main.py, src/datastruct/types.py, src/datastruct/utils/fields.py).

Python values are modelled by `PyVal`, evaluation contexts by `Ctx`,
byte streams by an explicit output byte list (packing) and by `RStream`
(unpacking).  Errors are modelled by `PErr` (a kind plus a message), the
recoverable-error set of utils/const.py by `isRecoverable`.  Code of the
repository that is not present under src/ (utils/const.py, utils/context.py,
utils/fmt.py, utils/misc.py, utils/public.py) is modelled from the spec and
marked as such in the doc comment of each definition.
-/

/-- A byte string: each entry is a byte value (kept below 256 by the
operations that produce bytes). -/
abbrev ByteStr : Type := List Nat

/-- Dynamic Python values as the codec engine observes them: `none` and the
`Ellipsis` UNSET marker, booleans, integers, text, byte strings, lists and
tuples, enumerated-type members (carrying the enum class name and the raw
value), and DataStruct instances (carrying the class name and the ordered
public field values). -/
inductive PyVal : Type where
  | none : PyVal
  | ellipsis : PyVal
  | bool : Bool → PyVal
  | int : Int → PyVal
  | str : String → PyVal
  | bytes : ByteStr → PyVal
  | list : List PyVal → PyVal
  | tuple : List PyVal → PyVal
  | enumV : String → Int → PyVal
  | record : String → List (String × PyVal) → PyVal

/-- Python truthiness of the embedded values: `None`, `False`, `0`, empty
text, empty byte string and empty containers are falsy, everything else is
truthy (the Ellipsis singleton is truthy in Python). -/
def pyTruthy : PyVal → Bool
  | .none => false
  | .ellipsis => true
  | .bool b => b
  | .int n => n ≠ 0
  | .str s => s ≠ ""
  | .bytes bs => bs ≠ ([] : List Nat)
  | .list xs => ¬ xs.isEmpty
  | .tuple xs => ¬ xs.isEmpty
  | .enumV _ _ => true
  | .record _ _ => true

/-- Whether a value is the `Ellipsis` UNSET marker (the `value is Ellipsis`
checks of main.py). -/
def isEllipsis : PyVal → Bool
  | .ellipsis => true
  | _ => false

/-- The evaluation context (types.py `Context`, a `Container` dict with
attribute access): the progressively filled name/value entries, the
direction flags, snapshots of the local and absolute stream positions (the
`tell`/`abstell` accessor closures of the missing utils/context.py are
modelled as position snapshots), and the optional parent context
back-reference. -/
inductive Ctx : Type where
  | mk : List (String × PyVal) → Bool → Bool → Nat → Nat → Option Ctx → Ctx

/-- The name/value entries of a context. -/
def Ctx.vals : Ctx → List (String × PyVal)
  | .mk vs _ _ _ _ _ => vs

/-- The packing-direction flag of a context. -/
def Ctx.packing : Ctx → Bool
  | .mk _ p _ _ _ _ => p

/-- The unpacking-direction flag of a context. -/
def Ctx.unpacking : Ctx → Bool
  | .mk _ _ u _ _ _ => u

/-- The record-local stream position snapshot of a context. -/
def Ctx.tellv : Ctx → Nat
  | .mk _ _ _ t _ _ => t

/-- The absolute stream position snapshot of a context. -/
def Ctx.abstellv : Ctx → Nat
  | .mk _ _ _ _ a _ => a

/-- The parent context back-reference of a context. -/
def Ctx.parent : Ctx → Option Ctx
  | .mk _ _ _ _ _ p => p

/-- Reading an entry of the context; a missing attribute of a `Container`
reads as `None` (types.py lines 13-17). -/
def ctxGet (c : Ctx) (k : String) : PyVal :=
  match c.vals.lookup k with
  | some v => v
  | none => .none

/-- Setting an entry of the context (`ctx[name] = value` / attribute
assignment on the `Container` dict). -/
def ctxSet (c : Ctx) (k : String) (v : PyVal) : Ctx :=
  match c with
  | .mk vs p u t a par => .mk ((k, v) :: vs.filter (fun e => e.1 ≠ k)) p u t a par

/-- Removing an entry of the context (`ctx.pop(...)`). -/
def ctxPop (c : Ctx) (k : String) : Ctx :=
  match c with
  | .mk vs p u t a par => .mk (vs.filter (fun e => e.1 ≠ k)) p u t a par

/-- A metadata attribute that is either a concrete value or a
single-argument expression over the context (types.py `Value`). -/
inductive ValueOf (α : Type) : Type where
  | lit : α → ValueOf α
  | fn : (Ctx → α) → ValueOf α

/-- Modelled from the spec (utils/context.py is not under src/):
`evaluate(context, value)` invokes a callable value with the context and
returns any other value unchanged (spec §4.5); an absent metadata attribute
(the `Container` yields `None` for it) evaluates to `None`. -/
def evaluate (c : Ctx) : Option (ValueOf PyVal) → PyVal
  | Option.none => .none
  | some (.lit v) => v
  | some (.fn f) => f c

/-- Truthiness of an optional metadata attribute as Python sees it
(`if meta.length:` style checks): absent reads as `None` (falsy), a callable
is truthy, a literal has its value truthiness. -/
def optTruthy : Option (ValueOf PyVal) → Bool
  | Option.none => false
  | some (.fn _) => true
  | some (.lit v) => pyTruthy v

/-- Modelled from the spec (the host text codec, an external interface):
the UTF-8 byte form of one character. -/
def utf8Bytes (c : Char) : List Nat :=
  let n := c.toNat
  if n < 128 then [n]
  else if n < 2048 then [192 + n / 64, 128 + n % 64]
  else if n < 65536 then [224 + n / 4096, 128 + (n / 64) % 64, 128 + n % 64]
  else [240 + n / 262144, 128 + (n / 4096) % 64, 128 + (n / 64) % 64, 128 + n % 64]

/-- Modelled from the spec (the host text codec): UTF-8 encoding of text
(`str.encode()`). -/
def utf8Encode (s : String) : ByteStr :=
  s.data.flatMap utf8Bytes

/-- Modelled from the spec (the host text codec): UTF-8 decoding
(`bytes.decode()`), returning `none` on malformed input (a decode error,
which Python raises as a value-error kind). -/
def utf8Decode : List Nat → Option (List Char)
  | [] => some []
  | b :: bs =>
    if b < 128 then
      match utf8Decode bs with
      | some cs => some (Char.ofNat b :: cs)
      | Option.none => Option.none
    else if 194 ≤ b ∧ b ≤ 223 then
      match bs with
      | b2 :: bs2 =>
        if 128 ≤ b2 ∧ b2 < 192 then
          match utf8Decode bs2 with
          | some cs => some (Char.ofNat ((b - 192) * 64 + (b2 - 128)) :: cs)
          | Option.none => Option.none
        else Option.none
      | [] => Option.none
    else if 224 ≤ b ∧ b ≤ 239 then
      match bs with
      | b2 :: b3 :: bs3 =>
        if 128 ≤ b2 ∧ b2 < 192 ∧ 128 ≤ b3 ∧ b3 < 192 then
          let n := (b - 224) * 4096 + (b2 - 128) * 64 + (b3 - 128)
          if 2048 ≤ n ∧ ¬ (55296 ≤ n ∧ n ≤ 57343) then
            match utf8Decode bs3 with
            | some cs => some (Char.ofNat n :: cs)
            | Option.none => Option.none
          else Option.none
        else Option.none
      | _ => Option.none
    else if 240 ≤ b ∧ b ≤ 244 then
      match bs with
      | b2 :: b3 :: b4 :: bs4 =>
        if 128 ≤ b2 ∧ b2 < 192 ∧ 128 ≤ b3 ∧ b3 < 192 ∧ 128 ≤ b4 ∧ b4 < 192 then
          let n := (b - 240) * 262144 + (b2 - 128) * 4096 + (b3 - 128) * 64 + (b4 - 128)
          if 65536 ≤ n ∧ n ≤ 1114111 then
            match utf8Decode bs4 with
            | some cs => some (Char.ofNat n :: cs)
            | Option.none => Option.none
          else Option.none
        else Option.none
      | _ => Option.none
    else Option.none

/-- Error kinds of the embedded engine; `valueError`, `typeError` and
`structError` stand for Python ValueError, TypeError and struct.error.
`stopIteration` models StopIteration escaping `next()`, `attributeError`
models attribute failures, and `outOfFuel` is the artefact of bounding the
otherwise unbounded loops of the source. -/
inductive PErrKind : Type where
  | valueError : PErrKind
  | typeError : PErrKind
  | structError : PErrKind
  | stopIteration : PErrKind
  | attributeError : PErrKind
  | outOfFuel : PErrKind
  | unmodelled : PErrKind
deriving DecidableEq

/-- An error: its kind and its message (`e.args[0]`). -/
structure PErr : Type where
  kind : PErrKind
  msg : String
deriving DecidableEq

/-- Modelled from the spec (utils/const.py is not under src/): the
recoverable-error set `EXCEPTIONS` that pack/unpack intercept to append
field-path context — value errors, type-mismatch errors, and
binary-pack/format errors (spec §4.8). -/
def isRecoverable : PErrKind → Bool
  | .valueError => true
  | .typeError => true
  | .structError => true
  | _ => false

/-- Generic resolution of a value-or-expression attribute whose payload is
not a `PyVal` (used for format specifiers). -/
def evalOf {α : Type} (c : Ctx) : ValueOf α → α
  | .lit a => a
  | .fn f => f c

/-- Modelled from the spec (§6, the host binary-pack facility is an external
interface): the pack codes exercised by this development — an unsigned byte,
a little-endian unsigned 16-bit integer, and a fixed-length character run
(the `ns` codes). -/
inductive PackCode : Type where
  | u8 : PackCode
  | u16le : PackCode
  | chars : Nat → PackCode

/-- Modelled from the spec (§6): the byte width of a pack code
(`struct.calcsize`). -/
def calcsizeC : PackCode → Nat
  | .u8 => 1
  | .u16le => 2
  | .chars n => n

/-- A byte string truncated or zero-padded to an exact length (the host
pack rule for fixed-length character runs). -/
def padTrunc (n : Nat) (bs : ByteStr) : ByteStr :=
  bs.take n ++ List.replicate (n - bs.length) 0

/-- Modelled from the spec (§6): `struct.pack` for the embedded pack codes;
out-of-range numbers and mismatched argument types raise the binary-pack
error kind. -/
def structPackC : PackCode → PyVal → Except PErr ByteStr
  | .u8, .int n =>
    if 0 ≤ n ∧ n ≤ 255 then .ok [n.toNat]
    else .error ⟨.structError, "ubyte format requires 0 <= number <= 255"⟩
  | .u8, .bool b => .ok [if b then 1 else 0]
  | .u16le, .int n =>
    if 0 ≤ n ∧ n ≤ 65535 then .ok [n.toNat % 256, n.toNat / 256]
    else .error ⟨.structError, "ushort format requires 0 <= number <= 65535"⟩
  | .u16le, .bool b => .ok [if b then 1 else 0, 0]
  | .chars n, .bytes bs => .ok (padTrunc n bs)
  | _, _ => .error ⟨.structError, "argument type mismatch"⟩

/-- Modelled from the spec (§6): `struct.unpack` for the embedded pack
codes; the buffer must have exactly the code width. -/
def structUnpackC (c : PackCode) (bs : ByteStr) : Except PErr PyVal :=
  if bs.length ≠ calcsizeC c then
    .error ⟨.structError, "unpack requires a buffer of " ++ toString (calcsizeC c) ++ " bytes"⟩
  else
    match c with
    | .u8 => .ok (.int (bs.headD 0))
    | .u16le => .ok (.int ((bs.headD 0) + 256 * (bs.tail.headD 0)))
    | .chars _ => .ok (.bytes bs)

/-- A resolved format specifier (spec §4.4): either an explicit byte count
or a pack code. -/
inductive FmtVal : Type where
  | size : Int → FmtVal
  | code : PackCode → FmtVal

/-- Modelled from the spec (utils/fmt.py is not under src/):
`fmt_evaluate(ctx, fmt, endianness)` resolves an expression format to its
value (spec §4.4).  Endianness-prefix handling is not modelled because the
embedded pack codes fix their own byte order; a field with no format
resolves to an error (no claim exercises that path). -/
def fmt_evaluate (c : Ctx) : Option (ValueOf FmtVal) → Except PErr FmtVal
  | Option.none => .error ⟨.valueError, "Format specifier missing"⟩
  | some v => .ok (evalOf c v)

/-- Truthiness of the format attribute as `if meta.fmt:` sees it: absent is
falsy, a callable is truthy, the integer 0 is falsy, a nonempty pack-code
string is truthy. -/
def fmtTruthy : Option (ValueOf FmtVal) → Bool
  | Option.none => false
  | some (.fn _) => true
  | some (.lit (.size n)) => n ≠ 0
  | some (.lit (.code _)) => true

/-- Scalar wire-encode (utils/fields.py lines 68-75, `field_encode`): text
is UTF-8 encoded, integers (and booleans, which Python treats as integers)
pass through, enumerated members yield their raw value, anything else is
returned unchanged. -/
def field_encode : PyVal → PyVal
  | .str s => .bytes (utf8Encode s)
  | .int n => .int n
  | .bool b => .bool b
  | .enumV _ r => .int r
  | v => v

/-- Declared member types as the validator and reader inspect them:
the Ellipsis annotation of layout-only members, scalar types, the builtin
`type` class (which main.py line 172 passes to `field_decode`), enumerated
types (with their member raw values), plain and parametrized ordered
sequences, and record (DataStruct subclass) types referenced by name. -/
inductive PyType : Type where
  | ellipsisT : PyType
  | intT : PyType
  | boolT : PyType
  | strT : PyType
  | bytesT : PyType
  | typeT : PyType
  | enumT : String → List Int → PyType
  | listT : Option PyType → PyType
  | tupleT : Option PyType → PyType
  | structT : String → PyType

/-- Whether a declared type is the Ellipsis annotation. -/
def isEllipsisT : PyType → Bool
  | .ellipsisT => true
  | _ => false

/-- Whether a declared type is a record type (`is_dataclass` /
`issubclass(typ, DataStruct)`). -/
def isStructT : PyType → Bool
  | .structT _ => true
  | _ => false

/-- Whether a declared type is one of the `ARRAYS` container shapes.
Modelled from the spec for utils/const.py (not under src/): an ordered
mutable sequence and an ordered immutable sequence (list and tuple). -/
def isArrayT : PyType → Bool
  | .listT _ => true
  | .tupleT _ => true
  | _ => false

/-- Whether a runtime value is one of the `ARRAYS` container shapes
(`isinstance(value, ARRAYS)`). -/
def isArrayV : PyVal → Bool
  | .list _ => true
  | .tuple _ => true
  | _ => false

/-- Scalar wire-decode (utils/fields.py lines 78-83, `field_decode`): raw
bytes destined for a text type are UTF-8 decoded (a decode failure is a
value-error kind), a raw value destined for an enumerated type is looked up
among the members (a value error names the invalid raw value otherwise),
any other destination type passes the value through. -/
def field_decode (v : PyVal) (cls : PyType) : Except PErr PyVal :=
  match cls with
  | .strT =>
    match v with
    | .bytes bs =>
      match utf8Decode bs with
      | some cs => .ok (.str (String.mk cs))
      | Option.none => .error ⟨.valueError, "invalid utf-8 sequence"⟩
    | _ => .error ⟨.attributeError, "value has no decode method"⟩
  | .enumT ename members =>
    match v with
    | .int r =>
      if members.contains r then .ok (.enumV ename r)
      else .error ⟨.valueError, toString r ++ " is not a valid " ++ ename⟩
    | _ => .error ⟨.valueError, "value is not a valid " ++ ename⟩
  | _ => .ok v

/-- The field kinds, exactly the members the `FieldType` enum of
src/datastruct/types.py lines 42-50 declares: FIELD, SEEK, PADDING, REPEAT
and COND (the enum declares no SWITCH member). -/
inductive FieldTypeK : Type where
  | FIELD : FieldTypeK
  | SEEK : FieldTypeK
  | PADDING : FieldTypeK
  | REPEAT : FieldTypeK
  | COND : FieldTypeK
deriving DecidableEq

/-- The non-recursive attributes of a `FieldMeta` record (types.py lines
53-77); absent attributes are `none`/defaults, matching the `Container`
semantics. The `base` attribute is kept on `FieldRec` to give the
descriptor its recursive structure. -/
structure MetaCore : Type where
  validated : Bool := false
  public : Bool := true
  ftype : FieldTypeK
  fmt : Option (ValueOf FmtVal) := Option.none
  builder : Option (ValueOf PyVal) := Option.none
  always : Bool := false
  length : Option (ValueOf PyVal) := Option.none
  modulus : Option (ValueOf PyVal) := Option.none
  pattern : ByteStr := []
  check : Bool := true
  absolute : Bool := false
  count : Option (ValueOf PyVal) := Option.none
  when : Option (ValueOf PyVal) := Option.none
  last : Option (ValueOf PyVal) := Option.none
  condition : Option (ValueOf PyVal) := Option.none
  if_not : Option (ValueOf PyVal) := Option.none

/-- A field descriptor: its declared name, its declared value type, its
dataclass default (`Ellipsis` when none was given, as in `build_field`),
and its metadata attributes.  A `wrap` descriptor additionally carries the
wrapped base descriptor (the `meta.base` attribute of the wrapper kinds);
a `mk` descriptor has no base (`meta.base` reads as `None`). -/
inductive FieldRec : Type where
  | mk : String → PyType → PyVal → MetaCore → FieldRec
  | wrap : String → PyType → PyVal → MetaCore → FieldRec → FieldRec

/-- The declared name of a field descriptor. -/
def FieldRec.name : FieldRec → String
  | .mk n _ _ _ => n
  | .wrap n _ _ _ _ => n

/-- The declared value type of a field descriptor. -/
def FieldRec.type : FieldRec → PyType
  | .mk _ t _ _ => t
  | .wrap _ t _ _ _ => t

/-- The dataclass default of a field descriptor. -/
def FieldRec.dflt : FieldRec → PyVal
  | .mk _ _ d _ => d
  | .wrap _ _ d _ _ => d

/-- The metadata attributes of a field descriptor (`field_get_meta`). -/
def FieldRec.meta : FieldRec → MetaCore
  | .mk _ _ _ m => m
  | .wrap _ _ _ m _ => m

/-- The wrapped base descriptor of a field descriptor (`meta.base`,
`field_get_base`), absent for a plain descriptor. -/
def FieldRec.base : FieldRec → Option FieldRec
  | .mk _ _ _ _ => Option.none
  | .wrap _ _ _ _ b => some b

/-- A descriptor with its declared name and type replaced (the in-place
`base_field.name = field.name` / `base_field.type = ...` assignments of
`field_validate` lines 174-179, made functional). -/
def FieldRec.withNT : FieldRec → String → PyType → FieldRec
  | .mk _ _ d m, n, t => .mk n t d m
  | .wrap _ _ d m b, n, t => .wrap n t d m b

/-- A record type declaration: the class name and the ordered field
descriptors. -/
structure DSDef : Type where
  name : String
  fields : List FieldRec

/-- The class environment: the record types of the program, looked up by
name when a nested instance or a nested declared type dispatches to its own
pack/unpack. -/
abbrev ClassEnv : Type := List (String × DSDef)

/-- The container-type/element-type resolution of a declared member type
(utils/fields.py lines 86-94, `field_get_type`): the Ellipsis annotation
has no element, a parametrized ordered sequence yields its origin and
element type, anything else yields itself with no element. -/
def field_get_type : PyType → PyType × Option PyType
  | .ellipsisT => (.ellipsisT, Option.none)
  | .listT (some e) => (.listT Option.none, some e)
  | .listT Option.none => (.listT Option.none, Option.none)
  | .tupleT (some e) => (.tupleT Option.none, some e)
  | .tupleT Option.none => (.tupleT Option.none, Option.none)
  | t => (t, Option.none)

/-- Modelled from the spec (§4.4, utils/fmt.py is not under src/):
`fmt_check` validates that a literal pack-code is syntactically well
formed; the embedded pack codes are well formed by construction and
expression formats are skipped, so the check always succeeds here. -/
def fmt_check (_ : Option (ValueOf FmtVal)) : Except PErr Unit :=
  .ok ()

/-- The declaration validator (utils/fields.py lines 132-181,
`field_validate`), with the name and type to validate under passed as
arguments so that the recursive call on the wrapped base descriptor (whose
name and type the source mutates in place before validating it) is
structural.  An already
validated descriptor is returned unchanged; a layout-only descriptor must
be annotated with Ellipsis (and returns before the validated flag is set,
as in the source); a public descriptor must not be annotated with Ellipsis;
a FIELD must not have a parametrized sequence type, must not combine a
record type with a format, and has a literal format syntax-checked; a
REPEAT needs a parametrized sequence type, a FIELD-kind base, and a base
builder declared with always; finally the field name (and for REPEAT the
element type, otherwise the declared type) is propagated onto the base
descriptor, which is then validated recursively, and the validated flag is
set. -/
def field_validate_aux : FieldRec → String → PyType → Except PErr FieldRec
  | f, name, typ =>
    let m := f.meta
    if m.validated then .ok (f.withNT name typ)
    else
      let ft := (field_get_type typ).1
      let it := (field_get_type typ).2
      if ¬ m.public then
        if ¬ isEllipsisT ft then
          .error ⟨.typeError, "Use Ellipsis (...) for special fields"⟩
        else .ok (f.withNT name typ)
      else if isEllipsisT ft then
        .error ⟨.typeError, "Cannot use Ellipsis for standard fields"⟩
      else
        let kindCheck : Except PErr Unit :=
          match m.ftype with
          | .FIELD =>
            if it.isSome then
              .error ⟨.valueError, "Can\x27t use a list without repeat() wrapper"⟩
            else if isStructT ft ∧ fmtTruthy m.fmt then
              .error ⟨.valueError, "Use subfield() for instances of DataStruct"⟩
            else if fmtTruthy m.fmt then fmt_check m.fmt
            else .ok ()
          | .REPEAT =>
            match f.base with
            | Option.none => .error ⟨.attributeError, "repeat() base field is missing"⟩
            | some b =>
              if it.isNone then
                .error ⟨.valueError, "Can\x27t use repeat() for a non-list field"⟩
              else if b.meta.ftype ≠ .FIELD then
                .error ⟨.valueError,
                  "Only field(), subfield() and built() can be used with repeat()"⟩
              else if b.meta.builder.isSome ∧ ¬ b.meta.always then
                .error ⟨.valueError, "Built fields inside repeat() are always built"⟩
              else .ok ()
          | _ => .ok ()
        match kindCheck with
        | .error e => .error e
        | .ok _ =>
          match f with
          | .wrap _ _ dflt m2 b =>
            let isRep := m2.ftype = .REPEAT
            let baseType := if isRep then
              (match it with
                | some e => e
                | Option.none => ft)
              else typ
            let fldType := if isRep then ft else typ
            match field_validate_aux b name baseType with
            | .ok vb =>
              .ok (.wrap name fldType dflt { m2 with validated := true } vb)
            | .error e => .error e
          | .mk _ _ dflt m2 =>
            .ok (.mk name typ dflt { m2 with validated := true })

/-- The declaration validator applied to a descriptor (utils/fields.py
`field_validate`). -/
def field_validate (f : FieldRec) : Except PErr FieldRec :=
  field_validate_aux f f.name f.type

/-- Modelled from the spec (§4.1; `field_get_default` is imported by
main.py from utils.fields but absent from src/): the usable default of a
public field — a builder field is deferred (it keeps the UNSET marker and
is built on the next pack), an explicit default or factory value is used,
a repeat field gets a fresh empty list; otherwise there is no usable
default (nested-record default construction is not modelled; no verified
claim exercises it). -/
def field_get_default (f : FieldRec) : Option PyVal :=
  if f.meta.builder.isSome then some .ellipsis
  else if ¬ isEllipsis f.dflt then some f.dflt
  else if f.meta.ftype = .REPEAT then some (.list [])
  else Option.none

/-- Construction-time defaulting (main.py lines 29-48,
`DataStruct.__post_init__`): every field is validated first; a public field
whose value is the UNSET marker receives its usable default, and a
missing-required-field value error is raised when none exists.  The
attribute map of the instance is threaded functionally. -/
def post_init (dsd : DSDef) : List FieldRec → List (String × PyVal) →
    Except PErr (List (String × PyVal))
  | [], vals => .ok vals
  | f :: rest, vals =>
    match field_validate f with
    | .error e => .error e
    | .ok _ =>
      let value := match vals.lookup f.name with
        | some v => v
        | Option.none => f.dflt
      if ¬ isEllipsis value ∨ ¬ f.meta.public then post_init dsd rest vals
      else
        match field_get_default f with
        | some d => post_init dsd rest ((f.name, d) :: vals.filter (fun e => e.1 ≠ f.name))
        | Option.none =>
          .error ⟨.valueError,
            "Cannot create an instance of " ++ dsd.name ++ ": field \x27" ++ f.name ++
              "\x27 has no default and no value was passed, nor can it be built"⟩

/-- Instance construction (`cls(**values)`): each public field takes the
supplied keyword value or its declared default, then `__post_init__` runs;
the result is the instance value. -/
def construct (dsd : DSDef) (values : List (String × PyVal)) : Except PErr PyVal :=
  let vals := dsd.fields.map (fun f =>
    (f.name, match values.lookup f.name with
      | some v => v
      | Option.none => f.dflt))
  match post_init dsd dsd.fields vals with
  | .error e => .error e
  | .ok vals2 =>
    .ok (.record dsd.name (dsd.fields.filterMap (fun f =>
      if f.meta.public then some (f.name, match vals2.lookup f.name with
        | some v => v
        | Option.none => .ellipsis)
      else Option.none)))

/-- Modelled from the spec (§4.3, utils/misc.py is not under src/):
`pad_up(position, modulus)` is the fill-byte count to the next multiple of
the modulus. -/
def pad_up (pos m : Nat) : Nat :=
  (m - pos % m) % m

/-- Modelled from the spec (§4.3, utils/misc.py is not under src/):
`repstr(pattern, length)` repeats the pattern cyclically and truncates to
exactly the requested length. -/
def repstr (pattern : ByteStr) (length : Nat) : ByteStr :=
  (List.range length).map (fun i => pattern.getD (i % pattern.length) 0)

/-- The padding helper exactly as src/datastruct/utils/fields.py lines
120-129 defines it (`field_get_padding(ctx, meta)`): two parameters, and a
pair of the resolved length and the fill bytes as the result — no `check`
component and no configuration parameter. -/
def field_get_padding (ctx : Ctx) (m : MetaCore) : Except PErr (Int × ByteStr) :=
  if optTruthy m.length then
    match evaluate ctx m.length with
    | .int n => .ok (n, repstr m.pattern n.toNat)
    | _ => .error ⟨.typeError, "padding length is not an integer"⟩
  else if optTruthy m.modulus then
    match evaluate ctx m.modulus with
    | .int md =>
      let tell := if m.absolute then ctx.abstellv else ctx.tellv
      let n := pad_up tell md.toNat
      .ok ((n : Int), repstr m.pattern n)
    | _ => .error ⟨.typeError, "padding modulus is not an integer"⟩
  else .error ⟨.valueError, "Unknown padding type"⟩

/-- The read-side byte stream: the underlying data and the current read
position (`ctx.io` during unpack). -/
structure RStream : Type where
  data : ByteStr
  pos : Nat
deriving DecidableEq

/-- Reading up to `n` bytes from the stream (`ctx.io.read(n)`); a negative
count reads the whole rest of the stream, as the host byte-buffer streams
do. -/
def rread (s : RStream) (n : Int) : ByteStr × RStream :=
  let rest := s.data.drop s.pos
  let taken := if n < 0 then rest else rest.take n.toNat
  (taken, ⟨s.data, s.pos + taken.length⟩)

/-- Python `len()` over the embedded values (`none` models the TypeError of
unsized objects). -/
def pyLen : PyVal → Option Nat
  | .str s => some s.length
  | .bytes bs => some bs.length
  | .list xs => some xs.length
  | .tuple xs => some xs.length
  | _ => Option.none

/-- Python slicing `value[:n]` on a byte string: a non-negative bound keeps
the first `n` bytes, a negative bound drops that many bytes from the end. -/
def pySliceTo (bs : ByteStr) (n : Int) : ByteStr :=
  if 0 ≤ n then bs.take n.toNat
  else bs.take (bs.length - min bs.length (-n).toNat)

/-- Python `isinstance(v, int)` (booleans are integers in Python). -/
def isIntInstance : PyVal → Bool
  | .int _ => true
  | .bool _ => true
  | _ => false

/-- The numeric value of an integer-instance value (a boolean counts as 0
or 1). -/
def pyIntVal : PyVal → Int
  | .int n => n
  | .bool b => if b then 1 else 0
  | _ => 0

/-- The comparison `i < count` of the repeat loops: defined for integer
instances, a type error otherwise. -/
def pyLtNat (i : Nat) (count : PyVal) : Except PErr Bool :=
  if isIntInstance count then .ok ((i : Int) < pyIntVal count)
  else .error ⟨.typeError, "unorderable types in repeat count comparison"⟩

/-- List element write-back of the repeat write loop (main.py lines
123-129): append when the list is too short, assign in place otherwise. -/
def listSetOrAppend (xs : List PyVal) (i : Nat) (v : PyVal) : List PyVal :=
  if xs.length ≤ i then xs ++ [v] else xs.set i v

/-- The message of the repeat length-mismatch value error (main.py lines
108-111). -/
def repeatLengthMsg (len : Nat) (count : Int) : String :=
  "List size (" ++ toString len ++
    ") doesn\x27t match repeat() \x27count\x27 parameter value (" ++
    toString count ++ ")"

/-- Result of a pack-side step: the value (or other payload) produced and
the whole output written so far, or an error and the output written before
it was raised. -/
inductive PRes (α : Type) : Type where
  | ok : α → ByteStr → PRes α
  | err : PErr → ByteStr → PRes α

/-- Result of the pack field loop: the final context, the final instance
attribute map and the output; or the qualified name of the failing field,
the error, and the output written before it. -/
inductive PFRes : Type where
  | ok : Ctx → List (String × PyVal) → ByteStr → PFRes
  | err : String → PErr → ByteStr → PFRes

/-- The scalar/nested-record value writer (main.py lines 50-69,
`DataStruct._write_value`), parameterized by the recursive pack entry used
for nested record instances (`value.pack(io, parent=ctx)`): a builder is
evaluated when the value is UNSET or `always` is set; a record value packs
itself recursively; an integer format writes the first `fmt` bytes of the
value after checking its length; a pack-code format wire-encodes the value
and writes its packed bytes. -/
def writeValueF
    (packRec : String → List (String × PyVal) → Ctx → ByteStr →
      PRes (List (String × PyVal)))
    (ctx : Ctx) (m : MetaCore) (value : PyVal) (out : ByteStr) : PRes PyVal :=
  let value := if m.builder.isSome ∧ (isEllipsis value ∨ m.always) then
    evaluate ctx m.builder else value
  match value with
  | .record cname rvals =>
    match packRec cname rvals ctx out with
    | .ok rvals2 out2 => .ok (.record cname rvals2) out2
    | .err e out2 => .err e out2
  | _ =>
    match fmt_evaluate ctx m.fmt with
    | .error e => .err e out
    | .ok (.size n) =>
      match pyLen value with
      | Option.none => .err ⟨.typeError, "object has no len()"⟩ out
      | some len =>
        if (len : Int) < n then
          .err ⟨.valueError,
            "Not enough bytes to write: " ++ toString len ++ " < " ++ toString n⟩ out
        else
          match value with
          | .bytes bs => .ok value (out ++ pySliceTo bs n)
          | _ => .err ⟨.typeError, "a bytes-like object is required"⟩ out
    | .ok (.code c) =>
      match structPackC c (field_encode value) with
      | .ok bs => .ok value (out ++ bs)
      | .error e => .err e out

/-- Result of writing one field: the updated context, the value to store
back onto the instance when the write produced one, and the output; or an
error and the output written before it. -/
inductive WFRes : Type where
  | ok : Ctx → Option PyVal → ByteStr → WFRes
  | err : PErr → ByteStr → WFRes

/-- Result of the repeat write loop: the updated context, the (possibly
written-back) element list and the output, or an error. -/
inductive RWRes : Type where
  | ok : Ctx → List PyVal → ByteStr → RWRes
  | err : PErr → ByteStr → RWRes

/-- The repeat write loop (main.py lines 113-138), parameterized by the
value writer: while the count is `None` or the index is below it, the index
is exposed on the context, the `when` predicate may stop the loop, the next
element is pulled from the sequence (UNSET for a builder base, which the
value writer then builds), the element is written and written back into a
list value, and the `last` predicate (seeing the element) may stop the
loop; the transient index is removed afterwards.  The structural `gas`
bounds the otherwise unbounded `count = None` iteration of the source. -/
def writeRepeatLoopF
    (wv : Ctx → MetaCore → PyVal → ByteStr → PRes PyVal) :
    Nat → Ctx → MetaCore → MetaCore → PyVal → Bool → List PyVal → List PyVal →
    Nat → ByteStr → RWRes
  | 0, _, _, _, _, _, _, _, _, out => .err ⟨.outOfFuel, "iteration bound exhausted"⟩ out
  | gas + 1, ctx, m, baseMeta, count, isList, iter, items, i, out =>
    let cont : Except PErr Bool :=
      match count with
      | .none => .ok true
      | c => pyLtNat i c
    match cont with
    | .error e => .err e out
    | .ok false => .ok (ctxPop ctx "i") items out
    | .ok true =>
      let ctx := ctxSet ctx "i" (.int i)
      if optTruthy m.when ∧ ¬ pyTruthy (evaluate ctx m.when) then
        .ok (ctxPop ctx "i") items out
      else
        let itemAndIter : Except PErr (PyVal × List PyVal) :=
          if baseMeta.builder.isSome then .ok (.ellipsis, iter)
          else
            match iter with
            | [] => .error ⟨.stopIteration, "StopIteration"⟩
            | x :: xs => .ok (x, xs)
        match itemAndIter with
        | .error e => .err e out
        | .ok (item, iter2) =>
          match wv ctx baseMeta item out with
          | .err e out2 => .err e out2
          | .ok item2 out2 =>
            let items2 := if isList then listSetOrAppend items i item2 else items
            let ctx2 := ctxSet ctx "item" item2
            let lastV := evaluate ctx2 m.last
            let ctx3 := ctxPop ctx2 "item"
            if pyTruthy lastV then .ok (ctxPop ctx3 "i") items2 out2
            else writeRepeatLoopF wv gas ctx3 m baseMeta count isList iter2 items2
              (i + 1) out2

/-- The per-kind field writer (main.py lines 71-154,
`DataStruct._write_field`), parameterized by the value writer and the loop
gas.  FIELD writes the value and stores it back; SEEK positioning is
outside the embedded sequential-stream model; PADDING faithfully reflects
that main.py line 90 calls `field_get_padding(self.config(), ctx, meta)`
with three arguments while utils/fields.py lines 120-129 define it with
two parameters, so the call raises a TypeError; REPEAT checks the value is
an ordered sequence, enforces a declared integer count against the sequence
length for non-builder bases before any element is written, and runs the
loop; COND skips entirely when the condition evaluates to the boolean
`False` and otherwise delegates to the wrapped base descriptor.  The
`FieldType` enum of types.py has no further member, so the dispatch ends
here (main.py lines 147-154 compare against a `FieldType.SWITCH` attribute
that the enum does not declare, and are unreachable because the five
declared kinds are all handled above). -/
def writeFieldF
    (wv : Ctx → MetaCore → PyVal → ByteStr → PRes PyVal) (gas : Nat) :
    Ctx → FieldRec → PyVal → ByteStr → WFRes
  | ctx, .mk fname _ _ m, value, out =>
    match m.ftype with
    | .FIELD =>
      match wv ctx m value out with
      | .ok v2 out2 => .ok (ctxSet ctx fname v2) (some v2) out2
      | .err e out2 => .err e out2
    | .SEEK => .err ⟨.unmodelled, "seek is outside the sequential stream model"⟩ out
    | .PADDING =>
      .err ⟨.typeError,
        "field_get_padding() takes 2 positional arguments but 3 were given"⟩ out
    | .REPEAT =>
      if isArrayV value then
        .err ⟨.attributeError, "repeat() base field is missing"⟩ out
      else .err ⟨.typeError, "Value is not an array"⟩ out
    | .COND =>
      match evaluate ctx m.condition with
      | .bool false => .ok ctx Option.none out
      | _ => .err ⟨.attributeError, "cond() base field is missing"⟩ out
  | ctx, .wrap fname _ _ m fb, value, out =>
    match m.ftype with
    | .FIELD =>
      match wv ctx m value out with
      | .ok v2 out2 => .ok (ctxSet ctx fname v2) (some v2) out2
      | .err e out2 => .err e out2
    | .SEEK => .err ⟨.unmodelled, "seek is outside the sequential stream model"⟩ out
    | .PADDING =>
      .err ⟨.typeError,
        "field_get_padding() takes 2 positional arguments but 3 were given"⟩ out
    | .REPEAT =>
      match value with
      | .list items =>
        let count := evaluate ctx m.count
        if isIntInstance count ∧ (items.length : Int) ≠ pyIntVal count ∧
            ¬ fb.meta.builder.isSome then
          .err ⟨.valueError, repeatLengthMsg items.length (pyIntVal count)⟩ out
        else
          match writeRepeatLoopF wv gas ctx m fb.meta count true items items 0 out with
          | .ok ctx2 items2 out2 => .ok (ctxSet ctx2 fname (.list items2))
              (some (.list items2)) out2
          | .err e out2 => .err e out2
      | .tuple items =>
        let count := evaluate ctx m.count
        if isIntInstance count ∧ (items.length : Int) ≠ pyIntVal count ∧
            ¬ fb.meta.builder.isSome then
          .err ⟨.valueError, repeatLengthMsg items.length (pyIntVal count)⟩ out
        else
          match writeRepeatLoopF wv gas ctx m fb.meta count false items items 0 out with
          | .ok ctx2 _ out2 => .ok ctx2 Option.none out2
          | .err e out2 => .err e out2
      | _ => .err ⟨.typeError, "Value is not an array"⟩ out
    | .COND =>
      match evaluate ctx m.condition with
      | .bool false => .ok ctx Option.none out
      | _ => writeFieldF wv gas ctx fb value out

/-- The pack field loop (main.py lines 249-253): the fields and their
values are a snapshot taken at pack start; each field is dispatched through
the field writer, built values are stored back into the instance attribute
map, and an error is reported with the qualified name of the field being
processed. -/
def packFieldsF (wf : Ctx → FieldRec → PyVal → ByteStr → WFRes) (tyName : String) :
    List (FieldRec × PyVal) → Ctx → List (String × PyVal) → ByteStr → PFRes
  | [], ctx, inst, out => .ok ctx inst out
  | (f, value) :: rest, ctx, inst, out =>
    match wf ctx f value out with
    | .err e out2 => .err (tyName ++ "." ++ f.name) e out2
    | .ok ctx2 newVal out2 =>
      let inst2 := match newVal with
        | some v => (f.name, v) :: inst.filter (fun e => e.1 ≠ f.name)
        | Option.none => inst
      packFieldsF wf tyName rest ctx2 inst2 out2

/-- The packer (main.py lines 240-257, `DataStruct.pack`): a packing-mode
context is built and seeded with every attribute value that is not the
UNSET marker, the fields are processed in declaration order, and a
recoverable error crossing this call gains the packing suffix naming the
field being processed, re-raised with its kind unchanged; other error kinds
propagate untouched.  The result is the updated instance attribute map and
the output bytes.  `fuel` bounds the recursion into nested records and the
unbounded repeat loops. -/
def packDS : Nat → ClassEnv → DSDef → List (String × PyVal) → Option Ctx →
    ByteStr → PRes (List (String × PyVal))
  | 0, _, _, _, _, out => .err ⟨.outOfFuel, "recursion bound exhausted"⟩ out
  | fuel + 1, env, dsd, inst, parent, out =>
    let snapshot := dsd.fields.map (fun f =>
      (f, match inst.lookup f.name with
        | some v => v
        | Option.none => .ellipsis))
    let seeded := inst.filter (fun e => ¬ isEllipsis e.2)
    let ctx : Ctx := .mk seeded true false out.length out.length parent
    let packRec := fun cname rvals pctx pout =>
      match env.lookup cname with
      | some d => packDS fuel env d rvals (some pctx) pout
      | Option.none => PRes.err ⟨.unmodelled, "record class not in environment"⟩ pout
    match packFieldsF (writeFieldF (writeValueF packRec) fuel) dsd.name snapshot
        ctx inst out with
    | .ok _ inst2 out2 => .ok inst2 out2
    | .err fname e out2 =>
      if isRecoverable e.kind then
        .err ⟨e.kind, e.msg ++ "; while packing \x27" ++ fname ++ "\x27"⟩ out2
      else .err e out2

/-- Result of an unpack-side step: the payload and the stream after it, or
an error and the stream state where it was raised. -/
inductive URes (α : Type) : Type where
  | ok : α → RStream → URes α
  | err : PErr → RStream → URes α

/-- The scalar/nested-record value reader (main.py lines 156-173,
`DataStruct._read_value`), parameterized by the recursive unpack entry used
when the declared type is a record type.  An integer format reads that many
bytes and raises a short-read value error when fewer were available; a
pack-code format reads its exact width, decodes it, and then calls
`field_decode(value, type)` — passing the builtin `type` class, exactly as
main.py line 172 does, rather than the declared field type `typ`. -/
def readValueF
    (unpackRec : String → Ctx → RStream → URes PyVal)
    (ctx : Ctx) (m : MetaCore) (typ : PyType) (s : RStream) : URes PyVal :=
  match typ with
  | .structT cname => unpackRec cname ctx s
  | _ =>
    match fmt_evaluate ctx m.fmt with
    | .error e => .err e s
    | .ok (.size n) =>
      let (bs, s2) := rread s n
      if (bs.length : Int) < n then
        .err ⟨.valueError,
          "Not enough bytes to read: " ++ toString bs.length ++ " < " ++ toString n⟩ s2
      else .ok (.bytes bs) s2
    | .ok (.code c) =>
      let (bs, s2) := rread s (calcsizeC c)
      match structUnpackC c bs with
      | .error e => .err e s2
      | .ok v =>
        match field_decode v .typeT with
        | .ok v2 => .ok v2 s2
        | .error e => .err e s2

/-- Result of reading one field: the updated context, the produced value
(the UNSET marker for the special fields and a skipped conditional without
a fallback), and the stream; or an error. -/
inductive RFRes : Type where
  | ok : Ctx → PyVal → RStream → RFRes
  | err : PErr → RStream → RFRes

/-- Result of the repeat read loop: the updated context, the accumulated
elements and the stream, or an error. -/
inductive RRRes : Type where
  | ok : Ctx → List PyVal → RStream → RRRes
  | err : PErr → RStream → RRRes

/-- The repeat read loop (main.py lines 208-223), parameterized by the
value reader: while the count is `None` or the index is below it, the index
is exposed on the context, the `when` predicate may stop the loop, an
element is read via the value reader and appended (the growing list stays
visible on the context under the field name), and the `last` predicate may
stop the loop; the transient index is removed afterwards. -/
def readRepeatLoopF
    (rv : Ctx → MetaCore → PyType → RStream → URes PyVal) :
    Nat → Ctx → String → MetaCore → MetaCore → PyType → PyVal → List PyVal →
    Nat → RStream → RRRes
  | 0, _, _, _, _, _, _, _, _, s => .err ⟨.outOfFuel, "iteration bound exhausted"⟩ s
  | gas + 1, ctx, fname, m, baseMeta, baseType, count, items, i, s =>
    let cont : Except PErr Bool :=
      match count with
      | .none => .ok true
      | c => pyLtNat i c
    match cont with
    | .error e => .err e s
    | .ok false => .ok (ctxPop ctx "i") items s
    | .ok true =>
      let ctx := ctxSet ctx "i" (.int i)
      if optTruthy m.when ∧ ¬ pyTruthy (evaluate ctx m.when) then
        .ok (ctxPop ctx "i") items s
      else
        match rv ctx baseMeta baseType s with
        | .err e s2 => .err e s2
        | .ok item s2 =>
          let items2 := items ++ [item]
          let ctx2 := ctxSet ctx fname (.list items2)
          let ctx3 := ctxSet ctx2 "item" item
          let lastV := evaluate ctx3 m.last
          let ctx4 := ctxPop ctx3 "item"
          if pyTruthy lastV then .ok (ctxPop ctx4 "i") items2 s2
          else readRepeatLoopF rv gas ctx4 fname m baseMeta baseType count items2
            (i + 1) s2

/-- The per-kind field reader (main.py lines 175-238,
`DataStruct._read_field`), parameterized by the value reader and the loop
gas.  FIELD reads a value and exposes it on the context; SEEK positioning
is outside the embedded sequential-stream model; PADDING faithfully
reflects that main.py line 192 calls `field_get_padding(cls.config(), ctx,
meta)` with three arguments while utils/fields.py lines 120-129 define it
with two parameters, so the call raises a TypeError before any bytes are
read; REPEAT requires an ordered-sequence declared type and runs the read
loop on a fresh list exposed on the context; COND produces the evaluated
`if_not` fallback (exposing it on the context) or the UNSET marker when the
condition evaluates to the boolean `False` (an undeclared `if_not` is the
Ellipsis attribute the `meta.if_not is not Ellipsis` test of main.py line
228 checks, modelled as `none`), and otherwise delegates to the wrapped
base descriptor.  As on the write side, the `FieldType` enum of types.py
declares no SWITCH member, so the dispatch ends here and main.py lines
235-238 are unreachable. -/
def readFieldF
    (rv : Ctx → MetaCore → PyType → RStream → URes PyVal) (gas : Nat) :
    Ctx → FieldRec → RStream → RFRes
  | ctx, .mk fname ftyp _ m, s =>
    match m.ftype with
    | .FIELD =>
      match rv ctx m ftyp s with
      | .ok v s2 => .ok (ctxSet ctx fname v) v s2
      | .err e s2 => .err e s2
    | .SEEK => .err ⟨.unmodelled, "seek is outside the sequential stream model"⟩ s
    | .PADDING =>
      .err ⟨.typeError,
        "field_get_padding() takes 2 positional arguments but 3 were given"⟩ s
    | .REPEAT =>
      if ¬ isArrayT ftyp then .err ⟨.typeError, "Field type is not an array"⟩ s
      else .err ⟨.attributeError, "repeat() base field is missing"⟩ s
    | .COND =>
      match evaluate ctx m.condition with
      | .bool false =>
        match m.if_not with
        | some ifn =>
          let v := evaluate ctx (some ifn)
          .ok (ctxSet ctx fname v) v s
        | Option.none => .ok ctx .ellipsis s
      | _ => .err ⟨.attributeError, "cond() base field is missing"⟩ s
  | ctx, .wrap fname ftyp _ m fb, s =>
    match m.ftype with
    | .FIELD =>
      match rv ctx m ftyp s with
      | .ok v s2 => .ok (ctxSet ctx fname v) v s2
      | .err e s2 => .err e s2
    | .SEEK => .err ⟨.unmodelled, "seek is outside the sequential stream model"⟩ s
    | .PADDING =>
      .err ⟨.typeError,
        "field_get_padding() takes 2 positional arguments but 3 were given"⟩ s
    | .REPEAT =>
      if ¬ isArrayT ftyp then .err ⟨.typeError, "Field type is not an array"⟩ s
      else
        let count := evaluate ctx m.count
        let ctx := ctxSet ctx fname (.list [])
        match readRepeatLoopF rv gas ctx fname m fb.meta fb.type count [] 0 s with
        | .ok ctx2 items s2 => .ok ctx2 (.list items) s2
        | .err e s2 => .err e s2
    | .COND =>
      match evaluate ctx m.condition with
      | .bool false =>
        match m.if_not with
        | some ifn =>
          let v := evaluate ctx (some ifn)
          .ok (ctxSet ctx fname v) v s
        | Option.none => .ok ctx .ellipsis s
      | _ => readFieldF rv gas ctx fb s

/-- Result of the unpack field loop: the final context, the collected
public field values and the stream; or the qualified name of the failing
field, the error, and the stream state where it was raised. -/
inductive UFRes : Type where
  | ok : Ctx → List (String × PyVal) → RStream → UFRes
  | err : String → PErr → RStream → UFRes

/-- The unpack field loop (main.py lines 269-277): each declared field is
validated lazily (inside the annotating handler) and then read; a value
that is not the UNSET marker is collected for construction; an error is
reported with the qualified name of the field being processed. -/
def unpackFieldsF (rf : Ctx → FieldRec → RStream → RFRes) (tyName : String) :
    List FieldRec → Ctx → List (String × PyVal) → RStream → UFRes
  | [], ctx, values, s => .ok ctx values s
  | f :: rest, ctx, values, s =>
    match field_validate f with
    | .error e => .err (tyName ++ "." ++ f.name) e s
    | .ok f2 =>
      match rf ctx f2 s with
      | .err e s2 => .err (tyName ++ "." ++ f.name) e s2
      | .ok ctx2 v s2 =>
        let values2 := if ¬ isEllipsis v then values ++ [(f.name, v)] else values
        unpackFieldsF rf tyName rest ctx2 values2 s2

/-- The unpacker (main.py lines 259-284, `DataStruct.unpack`): an
unpacking-mode context is built, the declared fields are validated and read
in order, the collected values construct a new instance, and a recoverable
error crossing this call gains the unpacking suffix naming the field being
processed — or the `Type()` form when the failure occurs during final
construction — re-raised with its kind unchanged; other error kinds
propagate untouched. -/
def unpackDS : Nat → ClassEnv → DSDef → Option Ctx → RStream → URes PyVal
  | 0, _, _, _, s => .err ⟨.outOfFuel, "recursion bound exhausted"⟩ s
  | fuel + 1, env, dsd, parent, s =>
    let ctx : Ctx := .mk [] false true s.pos s.pos parent
    let unpackRec := fun cname pctx st =>
      match env.lookup cname with
      | some d => unpackDS fuel env d (some pctx) st
      | Option.none => URes.err ⟨.unmodelled, "record class not in environment"⟩ st
    match unpackFieldsF (readFieldF (readValueF unpackRec) fuel) dsd.name dsd.fields
        ctx [] s with
    | .err fname e s2 =>
      if isRecoverable e.kind then
        .err ⟨e.kind, e.msg ++ "; while unpacking \x27" ++ fname ++ "\x27"⟩ s2
      else .err e s2
    | .ok _ values s2 =>
      match construct dsd values with
      | .ok inst => .ok inst s2
      | .error e =>
        if isRecoverable e.kind then
          .err ⟨e.kind,
            e.msg ++ "; while unpacking \x27" ++ dsd.name ++ "()\x27"⟩ s2
        else .err e s2

/-- One pack call up to (but not including) the error-annotation boundary:
the snapshot, seeding, context creation and field loop of main.py lines
245-253, with nested records dispatching through the class environment. -/
def packStep (fuel : Nat) (env : ClassEnv) (dsd : DSDef)
    (inst : List (String × PyVal)) (parent : Option Ctx) (out : ByteStr) : PFRes :=
  packFieldsF
    (writeFieldF
      (writeValueF (fun cname rvals pctx pout =>
        match env.lookup cname with
        | some d => packDS fuel env d rvals (some pctx) pout
        | Option.none => PRes.err ⟨.unmodelled, "record class not in environment"⟩ pout))
      fuel)
    dsd.name
    (dsd.fields.map (fun f =>
      (f, match inst.lookup f.name with
        | some v => v
        | Option.none => .ellipsis)))
    (Ctx.mk (inst.filter (fun e => ¬ isEllipsis e.2)) true false out.length out.length
      parent)
    inst out

/-- One unpack call up to the construction step: the context creation,
validation and field loop of main.py lines 265-277. -/
def unpackStep (fuel : Nat) (env : ClassEnv) (dsd : DSDef) (parent : Option Ctx)
    (s : RStream) : UFRes :=
  unpackFieldsF
    (readFieldF
      (readValueF (fun cname pctx st =>
        match env.lookup cname with
        | some d => unpackDS fuel env d (some pctx) st
        | Option.none => URes.err ⟨.unmodelled, "record class not in environment"⟩ st))
      fuel)
    dsd.name dsd.fields (Ctx.mk [] false true s.pos s.pos parent) [] s

/-- A record type with one text field of pack-code `2s`
(`s: str = field("2s")`). -/
def textMeta : MetaCore := { ftype := .FIELD, fmt := some (.lit (.code (.chars 2))) }

/-- The descriptor of the text field. -/
def textField : FieldRec := .mk "s" .strT .ellipsis textMeta

/-- The record type holding the text field. -/
def TextDS : DSDef := ⟨"Text", [textField]⟩

/-- A record type with one enumerated-type field of pack-code `B`
(`e: Color = field("B")`, where `Color` has member raw values 1 and 2). -/
def colorMeta : MetaCore := { ftype := .FIELD, fmt := some (.lit (.code .u8)) }

/-- The descriptor of the enumerated-type field. -/
def colorField : FieldRec := .mk "e" (.enumT "Color" [1, 2]) .ellipsis colorMeta

/-- The record type holding the enumerated-type field. -/
def ColorDS : DSDef := ⟨"Holder", [colorField]⟩

/-- The member names the `FieldType` enum of src/datastruct/types.py lines
42-50 declares. -/
def fieldTypeMembers : List String := ["FIELD", "SEEK", "PADDING", "REPEAT", "COND"]

/-- The members of the embedded field-kind enum, as a list. -/
def fieldTypeKAll : List FieldTypeK := [.FIELD, .SEEK, .PADDING, .REPEAT, .COND]

/-- The name of an embedded field-kind member. -/
def fieldTypeKName : FieldTypeK → String
  | .FIELD => "FIELD"
  | .SEEK => "SEEK"
  | .PADDING => "PADDING"
  | .REPEAT => "REPEAT"
  | .COND => "COND"

/-- The module-level names src/datastruct/utils/fields.py defines (lines
16-181). -/
def fieldsModuleDefs : List String :=
  ["build_field", "build_wrapper", "field_encode", "field_decode",
   "field_get_type", "field_get_meta", "field_get_base", "field_do_seek",
   "field_get_padding", "field_validate"]

/-- The names src/datastruct/main.py imports from `.utils.fields` (lines
12-22). -/
def mainImportsFromFields : List String :=
  ["field_decode", "field_do_seek", "field_encode", "field_get_base",
   "field_get_default", "field_get_meta", "field_get_padding",
   "field_switch_base", "field_validate"]

/-- The parameter names of `field_get_padding` as utils/fields.py line 120
declares them. -/
def fieldGetPaddingParams : List String := ["ctx", "meta"]

/-- The components of the tuple `field_get_padding` returns (utils/fields.py
line 129). -/
def fieldGetPaddingResultComponents : List String :=
  ["length", "repstr(meta.pattern, length)"]

/-- The arguments main.py line 192 passes to `field_get_padding`. -/
def mainUnpackPaddingCallArgs : List String := ["cls.config()", "ctx", "meta"]

/-- The assignment targets main.py line 192 unpacks the result into. -/
def mainUnpackPaddingTargets : List String := ["length", "padding", "check"]

/-- A `padding(length=4, pattern=b"\x00", check=True)` descriptor. -/
def padMeta : MetaCore :=
  { ftype := .PADDING, public := false, length := some (.lit (.int 4)),
    pattern := [0], check := true }

/-- The padding field descriptor (layout-only, Ellipsis type). -/
def padField : FieldRec := .mk "_pad" .ellipsisT .ellipsis padMeta

/-- The same padding descriptor with verification disabled. -/
def padFieldNoCheck : FieldRec :=
  .mk "_pad" .ellipsisT .ellipsis { padMeta with check := false }

/-- An empty unpacking-mode context. -/
def ctxU : Ctx := .mk [] false true 0 0 Option.none

/-- A value reader that is never consulted by the claims using it. -/
def rvUnused : Ctx → MetaCore → PyType → RStream → URes PyVal :=
  fun _ _ _ s => .err ⟨.unmodelled, "unused"⟩ s

/-- The inner record type: one 2-byte raw field (`x: bytes = field(2)`). -/
def innerXMeta : MetaCore := { ftype := .FIELD, fmt := some (.lit (.size 2)) }

/-- The descriptor of the inner byte field. -/
def innerXField : FieldRec := .mk "x" .bytesT .ellipsis innerXMeta

/-- The inner record type. -/
def InnerDS : DSDef := ⟨"Inner", [innerXField]⟩

/-- The outer record type holding one nested `Inner` sub-record
(`inner: Inner = subfield()`). -/
def outerField : FieldRec := .mk "inner" (.structT "Inner") .ellipsis { ftype := .FIELD }

/-- The outer record type. -/
def OuterDS : DSDef := ⟨"Outer", [outerField]⟩

/-- The class environment of the nested example. -/
def nestedEnv : ClassEnv := [("Inner", InnerDS), ("Outer", OuterDS)]

/-- Whether a default value is a shared-mutable literal that `build_field`
rejects (utils/fields.py lines 24-27: ordered/keyed/set-like containers and
record instances; of these the embedded value model has lists, tuples are
immutable and accepted, and records are `is_dataclass`). -/
def isMutableDefault : PyVal → Bool
  | .list _ => true
  | .record _ _ => true
  | _ => false

/-- The field factory (utils/fields.py lines 16-45, `build_field`), reduced
to its observable behaviour at class-declaration time: it rejects a
shared-mutable literal default and otherwise records the metadata with the
validated flag cleared — in particular it performs no layout validation, so
declaring an invalid layout raises nothing here. -/
def build_field (ftype : FieldTypeK) (dflt : PyVal) (public : Bool)
    (m : MetaCore) : Except PErr MetaCore :=
  if isMutableDefault dflt then
    .error ⟨.valueError, "Mutable default is not allowed: use default_factory"⟩
  else .ok { m with validated := false, public := public, ftype := ftype }

/-- An invalid declaration: a member typed as a parametrized ordered
sequence declared as a plain field, without a `repeat()` wrapper
(`xs: List[int] = field(1)`). -/
def badListMeta : MetaCore := { ftype := .FIELD, fmt := some (.lit (.size 1)) }

/-- The invalidly declared field descriptor. -/
def badListField : FieldRec := .mk "xs" (.listT (some .intT)) .ellipsis badListMeta

/-- The record type holding the invalid declaration. -/
def BadDS : DSDef := ⟨"Bad", [badListField]⟩

/-- A value writer that returns the value unchanged and writes nothing,
used to instantiate writer-parameterized claims at concrete inputs. -/
def wvId : Ctx → MetaCore → PyVal → ByteStr → PRes PyVal :=
  fun _ _ v out => .ok v out

/-- An empty packing-mode context. -/
def ctxP : Ctx := .mk [] true false 0 0 Option.none

/-- A `repeat(count=3)` wrapper metadata. -/
def repMeta3 : MetaCore := { ftype := .REPEAT, count := some (.lit (.int 3)) }

/-- A plain one-byte element field for repeat examples. -/
def itemField : FieldRec :=
  .mk "n" .intT .ellipsis { ftype := .FIELD, fmt := some (.lit (.code .u8)) }

/-- A builder element field (`built(..., always=True)`) for repeat
examples. -/
def builtItemField : FieldRec :=
  .mk "n" .intT .ellipsis
    { ftype := .FIELD, fmt := some (.lit (.code .u8)),
      builder := some (.lit (.int 7)), always := true }

/-- A conditional wrapper metadata with condition `ctx.flag` and fallback
`-1` (`cond(condition=lambda ctx: ctx.flag, if_not=-1)`). -/
def condMetaWithFallback : MetaCore :=
  { ftype := .COND, condition := some (.fn (fun c => ctxGet c "flag")),
    if_not := some (.lit (.int (-1))) }

/-- The same conditional wrapper without a declared fallback. -/
def condMetaNoFallback : MetaCore :=
  { ftype := .COND, condition := some (.fn (fun c => ctxGet c "flag")) }

/-- A context whose `flag` entry holds the boolean False. -/
def ctxFlagFalse : Ctx := .mk [("flag", .bool false)] false true 0 0 Option.none

/-- A context whose `flag` entry holds the boolean True. -/
def ctxFlagTrue : Ctx := .mk [("flag", .bool true)] false true 0 0 Option.none

/-- A conditional wrapper whose condition evaluates to the falsy integer 0
(`cond(condition=lambda ctx: 0)`). -/
def condMetaZero : MetaCore :=
  { ftype := .COND, condition := some (.lit (.int 0)), if_not := some (.lit (.int (-1))) }

/-- Unfolding a pack call into its field-loop step followed by the
error-annotation boundary of main.py lines 254-257. -/
theorem packDS_succ (fuel : Nat) (env : ClassEnv) (dsd : DSDef)
    (inst : List (String × PyVal)) (parent : Option Ctx) (out : ByteStr) :
    packDS (fuel + 1) env dsd inst parent out =
      match packStep fuel env dsd inst parent out with
      | .ok _ inst2 out2 => .ok inst2 out2
      | .err fname e out2 =>
        if isRecoverable e.kind then
          .err ⟨e.kind, e.msg ++ "; while packing \x27" ++ fname ++ "\x27"⟩ out2
        else .err e out2 := rfl

/-- Unfolding an unpack call into its field-loop step, the final
construction, and the error-annotation boundary of main.py lines 278-284. -/
theorem unpackDS_succ (fuel : Nat) (env : ClassEnv) (dsd : DSDef)
    (parent : Option Ctx) (s : RStream) :
    unpackDS (fuel + 1) env dsd parent s =
      match unpackStep fuel env dsd parent s with
      | .err fname e s2 =>
        if isRecoverable e.kind then
          .err ⟨e.kind, e.msg ++ "; while unpacking \x27" ++ fname ++ "\x27"⟩ s2
        else .err e s2
      | .ok _ values s2 =>
        match construct dsd values with
        | .ok inst => .ok inst s2
        | .error e =>
          if isRecoverable e.kind then
            .err ⟨e.kind, e.msg ++ "; while unpacking \x27" ++ dsd.name ++ "()\x27"⟩ s2
          else .err e s2 := rfl

/-- C1. The round-trip law fails on the code for a text scalar: packing the
instance with `s = "ab"` writes the bytes 97 98, but unpacking them yields
an instance whose field holds the raw bytes, not the text — because
main.py line 172 passes the builtin `type` (not the declared field type) to
`field_decode`, the UTF-8 decode never happens, and the unpacked instance
differs from the packed one. -/
theorem C1_round_trip_fails_on_text_field :
    packDS 5 [] TextDS [("s", .str "ab")] Option.none [] =
      .ok [("s", .str "ab")] [97, 98] ∧
    unpackDS 5 [] TextDS Option.none ⟨[97, 98], 0⟩ =
      .ok (.record "Text" [("s", .bytes [97, 98])]) ⟨[97, 98], 2⟩ ∧
    PyVal.record "Text" [("s", .bytes [97, 98])] ≠
      PyVal.record "Text" [("s", .str "ab")] :=
  ⟨rfl, rfl, by simp⟩

/-- C2. Scalar wire-decode is bypassed on unpack: a text field yields raw
bytes (no UTF-8 decode) and an enumerated-type field yields the raw integer
even when it matches no member (no invalid-enum-value error) — while
`field_decode` itself, applied to the declared types as the claim
describes, would decode the text and reject the invalid raw value.  The
cause is main.py line 172 calling `field_decode(value, type)` with the
builtin `type` instead of the declared type `typ`. -/
theorem C2_scalar_wire_decode_is_bypassed :
    unpackDS 5 [] TextDS Option.none ⟨[97, 98], 0⟩ =
      .ok (.record "Text" [("s", .bytes [97, 98])]) ⟨[97, 98], 2⟩ ∧
    field_decode (.bytes [97, 98]) .strT = .ok (.str "ab") ∧
    unpackDS 5 [] ColorDS Option.none ⟨[5], 0⟩ =
      .ok (.record "Holder" [("e", .int 5)]) ⟨[5], 1⟩ ∧
    field_decode (.int 5) (.enumT "Color" [1, 2]) =
      .error ⟨.valueError, "5 is not a valid Color"⟩ ∧
    field_decode (.int 1) (.enumT "Color" [1, 2]) = .ok (.enumV "Color" 1) :=
  ⟨rfl, rfl, rfl, rfl, rfl⟩

/-- C4. SWITCH dispatch cannot happen on this code: the `FieldType` enum of
types.py declares no SWITCH member (its five members are exactly FIELD,
SEEK, PADDING, REPEAT and COND, so no field descriptor can carry a SWITCH
kind and main.py lines 147-154 and 235-238 are unreachable), and main.py
imports `field_switch_base` (and `field_get_default`) from utils.fields,
which defines neither name. -/
theorem C4_switch_dispatch_unrepresentable :
    ¬ "SWITCH" ∈ fieldTypeMembers ∧
    fieldTypeKAll.map fieldTypeKName = fieldTypeMembers ∧
    (∀ k : FieldTypeK, k ∈ fieldTypeKAll) ∧
    "field_switch_base" ∈ mainImportsFromFields ∧
    ¬ "field_switch_base" ∈ fieldsModuleDefs ∧
    "field_get_default" ∈ mainImportsFromFields ∧
    ¬ "field_get_default" ∈ fieldsModuleDefs :=
  ⟨by decide, by decide, fun k => by cases k <;> decide, by decide, by decide,
    by decide, by decide⟩

/-- C7. Padding verification on unpack cannot run on this code: main.py
line 192 calls `field_get_padding` with three arguments and three
assignment targets, but utils/fields.py lines 120-129 define it with two
parameters returning a two-component tuple (no `check`), so every PADDING
field raises a TypeError on unpack before reading any bytes — with
`check=True` even on a stream of four zero bytes, and with `check=False`
alike.  The two-parameter helper itself resolves the example to length 4
and fill bytes 0 0 0 0. -/
theorem C7_padding_read_arity_mismatch :
    fieldGetPaddingParams.length = 2 ∧
    mainUnpackPaddingCallArgs.length = 3 ∧
    fieldGetPaddingResultComponents.length = 2 ∧
    mainUnpackPaddingTargets.length = 3 ∧
    field_get_padding ctxU padMeta = .ok (4, [0, 0, 0, 0]) ∧
    readFieldF rvUnused 3 ctxU padField ⟨[0, 0, 0, 0], 0⟩ =
      .err ⟨.typeError,
        "field_get_padding() takes 2 positional arguments but 3 were given"⟩
        ⟨[0, 0, 0, 0], 0⟩ ∧
    readFieldF rvUnused 3 ctxU padFieldNoCheck ⟨[1, 2, 3, 4], 0⟩ =
      .err ⟨.typeError,
        "field_get_padding() takes 2 positional arguments but 3 were given"⟩
        ⟨[1, 2, 3, 4], 0⟩ :=
  ⟨rfl, rfl, rfl, rfl, rfl, rfl, rfl⟩

/-- C3 counterexample. A failure inside a nested sub-record reaches the
caller with TWO contextual suffixes — one appended by the inner pack
boundary and one by the outer — not with exactly one: packing an `Outer`
whose `Inner.x` holds 1 byte instead of 2 yields the short-buffer message
followed by both packing suffixes, and that message differs from the
single-suffix message the claim predicts. -/
theorem C3_nested_error_gets_two_suffixes :
    packDS 9 nestedEnv OuterDS [("inner", .record "Inner" [("x", .bytes [1])])]
      Option.none [] =
      .err ⟨.valueError,
        "Not enough bytes to write: 1 < 2; while packing \x27Inner.x\x27; while packing \x27Outer.inner\x27"⟩
        [] ∧
    "Not enough bytes to write: 1 < 2; while packing \x27Inner.x\x27; while packing \x27Outer.inner\x27" ≠
      "Not enough bytes to write: 1 < 2; while packing \x27Inner.x\x27" :=
  ⟨rfl, by decide⟩

/-- C3 (amended). Each pack/unpack call is one annotation boundary: a
recoverable error escaping the field loop gains exactly one suffix naming
the record type and the field being processed (or the `Type()` form when
the failure occurs during final construction), with its kind unchanged —
so an error crossing several nested record boundaries accumulates one
suffix per boundary, innermost first. -/
theorem C3_one_suffix_per_record_boundary :
    (∀ fuel env dsd inst parent out fname e out2,
        packStep fuel env dsd inst parent out = .err fname e out2 →
        isRecoverable e.kind = true →
        packDS (fuel + 1) env dsd inst parent out =
          .err ⟨e.kind, e.msg ++ "; while packing \x27" ++ fname ++ "\x27"⟩ out2) ∧
    (∀ fuel env dsd parent s fname e s2,
        unpackStep fuel env dsd parent s = .err fname e s2 →
        isRecoverable e.kind = true →
        unpackDS (fuel + 1) env dsd parent s =
          .err ⟨e.kind, e.msg ++ "; while unpacking \x27" ++ fname ++ "\x27"⟩ s2) ∧
    (∀ fuel env dsd parent s ctx2 values s2 e,
        unpackStep fuel env dsd parent s = .ok ctx2 values s2 →
        construct dsd values = .error e →
        isRecoverable e.kind = true →
        unpackDS (fuel + 1) env dsd parent s =
          .err ⟨e.kind, e.msg ++ "; while unpacking \x27" ++ dsd.name ++ "()\x27"⟩ s2) := by
  refine ⟨?_, ?_, ?_⟩
  · intro fuel env dsd inst parent out fname e out2 h hrec
    rw [packDS_succ, h]
    simp [hrec]
  · intro fuel env dsd parent s fname e s2 h hrec
    rw [unpackDS_succ, h]
    simp [hrec]
  · intro fuel env dsd parent s ctx2 values s2 e h hc hrec
    rw [unpackDS_succ, h]
    simp [hc, hrec]

/-- C3 witness: the inner record of the nested example, packed on a
1-byte value, gains exactly the one suffix of its own boundary. -/
theorem C3_one_suffix_witness :
    packDS 9 nestedEnv InnerDS [("x", .bytes [1])] Option.none [] =
      .err ⟨.valueError,
        "Not enough bytes to write: 1 < 2; while packing \x27Inner.x\x27"⟩ [] :=
  C3_one_suffix_per_record_boundary.1 8 nestedEnv InnerDS [("x", .bytes [1])]
    Option.none [] "Inner.x" ⟨.valueError, "Not enough bytes to write: 1 < 2"⟩ []
    rfl rfl

/-- C9 counterexample. Packing the invalidly declared type raises no
declaration error at all — `pack` never validates, so (on an instance
whose attribute happens to hold a 1-byte value) it completes and writes
that byte — while construction (`__post_init__`) is where the declaration
error actually fires on the pack side, before `pack` can ever run. -/
theorem C9_pack_raises_no_declaration_error :
    packDS 5 [] BadDS [("xs", .bytes [7])] Option.none [] =
      .ok [("xs", .bytes [7])] [7] ∧
    post_init BadDS BadDS.fields [("xs", .bytes [7])] =
      .error ⟨.valueError, "Can\x27t use a list without repeat() wrapper"⟩ :=
  ⟨rfl, rfl⟩

/-- C9 (amended). The declaration error for a parametrized-sequence member
without `repeat()` is raised lazily, but on the pack side at instance
construction, not at first pack: the validator rejects the declaration;
`__post_init__` (run at every construction) therefore raises it for any
attribute values; the first unpack raises it with the unpacking suffix;
class-declaration time (`build_field`) raises nothing for this declaration;
and `pack` itself performs no validation, completing without a declaration
error. -/
theorem C9_declaration_error_surfacing :
    (field_validate badListField =
      .error ⟨.valueError, "Can\x27t use a list without repeat() wrapper"⟩) ∧
    (∀ vals, post_init BadDS BadDS.fields vals =
      .error ⟨.valueError, "Can\x27t use a list without repeat() wrapper"⟩) ∧
    (∀ fuel env parent s, unpackDS (fuel + 1) env BadDS parent s =
      .err ⟨.valueError,
        "Can\x27t use a list without repeat() wrapper; while unpacking \x27Bad.xs\x27"⟩
        s) ∧
    (∀ dflt, isMutableDefault dflt = false →
      build_field .FIELD dflt true badListMeta =
        .ok { badListMeta with validated := false, public := true, ftype := .FIELD }) ∧
    (∀ fuel env parent out,
      packDS (fuel + 1) env BadDS [("xs", .bytes [7])] parent out =
        .ok [("xs", .bytes [7])] (out ++ [7])) := by
  refine ⟨rfl, fun vals => rfl, fun fuel env parent s => ?_, ?_, ?_⟩
  · rw [unpackDS_succ]
    rfl
  · intro dflt h
    unfold build_field
    rw [h]
    simp
  · intro fuel env parent out
    rfl

/-- C9 witness: the non-mutable default Ellipsis passes `build_field`
without any declaration error. -/
theorem C9_declaration_error_witness :
    build_field .FIELD .ellipsis true badListMeta =
      .ok { badListMeta with validated := false, public := true, ftype := .FIELD } :=
  (C9_declaration_error_surfacing.2.2.2.1) .ellipsis rfl

/-- C5. On pack, a REPEAT field whose count resolves to an integer `n`
raises the length-mismatch value error when the supplied sequence (list or
tuple) has a different length — before any element is written: the output
is returned untouched — except when the wrapped base field is a builder
field, in which case the guard is skipped and processing proceeds directly
to the element loop. -/
theorem C5_repeat_length_enforced_before_loop :
    (∀ (wv : Ctx → MetaCore → PyVal → ByteStr → PRes PyVal) (gas : Nat) (ctx : Ctx)
        (fname : String) (ftyp : PyType) (dflt : PyVal) (m : MetaCore)
        (fb : FieldRec) (items : List PyVal) (out : ByteStr) (n : Int),
        m.ftype = .REPEAT →
        evaluate ctx m.count = .int n →
        (items.length : Int) ≠ n →
        fb.meta.builder = Option.none →
        writeFieldF wv gas ctx (.wrap fname ftyp dflt m fb) (.list items) out =
          .err ⟨.valueError, repeatLengthMsg items.length n⟩ out) ∧
    (∀ (wv : Ctx → MetaCore → PyVal → ByteStr → PRes PyVal) (gas : Nat) (ctx : Ctx)
        (fname : String) (ftyp : PyType) (dflt : PyVal) (m : MetaCore)
        (fb : FieldRec) (items : List PyVal) (out : ByteStr) (n : Int),
        m.ftype = .REPEAT →
        evaluate ctx m.count = .int n →
        (items.length : Int) ≠ n →
        fb.meta.builder = Option.none →
        writeFieldF wv gas ctx (.wrap fname ftyp dflt m fb) (.tuple items) out =
          .err ⟨.valueError, repeatLengthMsg items.length n⟩ out) ∧
    (∀ (wv : Ctx → MetaCore → PyVal → ByteStr → PRes PyVal) (gas : Nat) (ctx : Ctx)
        (fname : String) (ftyp : PyType) (dflt : PyVal) (m : MetaCore)
        (fb : FieldRec) (items : List PyVal) (out : ByteStr) (n : Int)
        (b : ValueOf PyVal),
        m.ftype = .REPEAT →
        evaluate ctx m.count = .int n →
        fb.meta.builder = some b →
        writeFieldF wv gas ctx (.wrap fname ftyp dflt m fb) (.list items) out =
          (match writeRepeatLoopF wv gas ctx m fb.meta (.int n) true items items 0 out
            with
          | .ok ctx2 items2 out2 =>
            .ok (ctxSet ctx2 fname (.list items2)) (some (.list items2)) out2
          | .err e out2 => .err e out2)) := by
  refine ⟨?_, ?_, ?_⟩
  · intro wv gas ctx fname ftyp dflt m fb items out n hft hcount hlen hb
    simp [writeFieldF, hft, hcount, hb, isIntInstance, pyIntVal, hlen]
  · intro wv gas ctx fname ftyp dflt m fb items out n hft hcount hlen hb
    simp [writeFieldF, hft, hcount, hb, isIntInstance, pyIntVal, hlen]
  · intro wv gas ctx fname ftyp dflt m fb items out n b hft hcount hb
    simp [writeFieldF, hft, hcount, hb, isIntInstance, pyIntVal]

/-- C5 witness: `repeat(count=3)` over a 2-element list and a 2-element
tuple raises the length-mismatch error writing nothing, and over a builder
base with an empty list proceeds to the loop. -/
theorem C5_repeat_length_witness :
    writeFieldF wvId 4 ctxP (.wrap "xs" (.listT (some .intT)) .ellipsis repMeta3
        itemField) (.list [.int 1, .int 2]) [] =
      .err ⟨.valueError, repeatLengthMsg 2 3⟩ [] ∧
    writeFieldF wvId 4 ctxP (.wrap "xs" (.tupleT (some .intT)) .ellipsis repMeta3
        itemField) (.tuple [.int 1, .int 2]) [] =
      .err ⟨.valueError, repeatLengthMsg 2 3⟩ [] ∧
    writeFieldF wvId 4 ctxP (.wrap "xs" (.listT (some .intT)) .ellipsis repMeta3
        builtItemField) (.list []) [] =
      (match writeRepeatLoopF wvId 4 ctxP repMeta3 builtItemField.meta (.int 3) true
          [] [] 0 [] with
      | .ok ctx2 items2 out2 =>
        .ok (ctxSet ctx2 "xs" (.list items2)) (some (.list items2)) out2
      | .err e out2 => .err e out2) :=
  ⟨C5_repeat_length_enforced_before_loop.1 wvId 4 ctxP "xs" (.listT (some .intT))
      .ellipsis repMeta3 itemField [.int 1, .int 2] [] 3 rfl rfl (by decide) rfl,
    C5_repeat_length_enforced_before_loop.2.1 wvId 4 ctxP "xs" (.tupleT (some .intT))
      .ellipsis repMeta3 itemField [.int 1, .int 2] [] 3 rfl rfl (by decide) rfl,
    C5_repeat_length_enforced_before_loop.2.2 wvId 4 ctxP "xs" (.listT (some .intT))
      .ellipsis repMeta3 builtItemField [] [] 3 (.lit (.int 7)) rfl rfl rfl⟩

/-- C6. COND behaviour: when the condition evaluates to the boolean False,
pack writes nothing (same output, same context, no value stored, base
untouched), and unpack produces the evaluated `if_not` expression as the
field value (exposing it on the context) when one was declared, else the
UNSET marker; a field whose read yields the UNSET marker contributes no
entry to the collected construction values (it is omitted from the
constructed instance), while any other produced value is collected under
the field name.  When the condition evaluates to the boolean True, both
directions delegate to the wrapped base descriptor. -/
theorem C6_cond_skip_fallback_delegate :
    (∀ (wv : Ctx → MetaCore → PyVal → ByteStr → PRes PyVal) (gas : Nat) (ctx : Ctx)
        (fname : String) (ftyp : PyType) (dflt : PyVal) (m : MetaCore)
        (fb : FieldRec) (value : PyVal) (out : ByteStr),
        m.ftype = .COND →
        evaluate ctx m.condition = .bool false →
        writeFieldF wv gas ctx (.wrap fname ftyp dflt m fb) value out =
          .ok ctx Option.none out) ∧
    (∀ (wv : Ctx → MetaCore → PyVal → ByteStr → PRes PyVal) (gas : Nat) (ctx : Ctx)
        (fname : String) (ftyp : PyType) (dflt : PyVal) (m : MetaCore)
        (fb : FieldRec) (value : PyVal) (out : ByteStr),
        m.ftype = .COND →
        evaluate ctx m.condition = .bool true →
        writeFieldF wv gas ctx (.wrap fname ftyp dflt m fb) value out =
          writeFieldF wv gas ctx fb value out) ∧
    (∀ (rv : Ctx → MetaCore → PyType → RStream → URes PyVal) (gas : Nat) (ctx : Ctx)
        (fname : String) (ftyp : PyType) (dflt : PyVal) (m : MetaCore)
        (fb : FieldRec) (s : RStream) (ifn : ValueOf PyVal),
        m.ftype = .COND →
        evaluate ctx m.condition = .bool false →
        m.if_not = some ifn →
        readFieldF rv gas ctx (.wrap fname ftyp dflt m fb) s =
          .ok (ctxSet ctx fname (evaluate ctx (some ifn))) (evaluate ctx (some ifn))
            s) ∧
    (∀ (rv : Ctx → MetaCore → PyType → RStream → URes PyVal) (gas : Nat) (ctx : Ctx)
        (fname : String) (ftyp : PyType) (dflt : PyVal) (m : MetaCore)
        (fb : FieldRec) (s : RStream),
        m.ftype = .COND →
        evaluate ctx m.condition = .bool false →
        m.if_not = Option.none →
        readFieldF rv gas ctx (.wrap fname ftyp dflt m fb) s = .ok ctx .ellipsis s) ∧
    (∀ (rv : Ctx → MetaCore → PyType → RStream → URes PyVal) (gas : Nat) (ctx : Ctx)
        (fname : String) (ftyp : PyType) (dflt : PyVal) (m : MetaCore)
        (fb : FieldRec) (s : RStream),
        m.ftype = .COND →
        evaluate ctx m.condition = .bool true →
        readFieldF rv gas ctx (.wrap fname ftyp dflt m fb) s =
          readFieldF rv gas ctx fb s) ∧
    (∀ (rf : Ctx → FieldRec → RStream → RFRes) (tyName : String) (f f2 : FieldRec)
        (rest : List FieldRec) (ctx : Ctx) (values : List (String × PyVal))
        (s : RStream) (ctx2 : Ctx) (s2 : RStream),
        field_validate f = .ok f2 →
        rf ctx f2 s = .ok ctx2 .ellipsis s2 →
        unpackFieldsF rf tyName (f :: rest) ctx values s =
          unpackFieldsF rf tyName rest ctx2 values s2) ∧
    (∀ (rf : Ctx → FieldRec → RStream → RFRes) (tyName : String) (f f2 : FieldRec)
        (rest : List FieldRec) (ctx : Ctx) (values : List (String × PyVal))
        (s : RStream) (ctx2 : Ctx) (v : PyVal) (s2 : RStream),
        field_validate f = .ok f2 →
        rf ctx f2 s = .ok ctx2 v s2 →
        isEllipsis v = false →
        unpackFieldsF rf tyName (f :: rest) ctx values s =
          unpackFieldsF rf tyName rest ctx2 (values ++ [(f.name, v)]) s2) := by
  refine ⟨?_, ?_, ?_, ?_, ?_, ?_, ?_⟩
  · intro wv gas ctx fname ftyp dflt m fb value out hft hcond
    simp [writeFieldF, hft, hcond]
  · intro wv gas ctx fname ftyp dflt m fb value out hft hcond
    simp [writeFieldF, hft, hcond]
  · intro rv gas ctx fname ftyp dflt m fb s ifn hft hcond hifn
    simp [readFieldF, hft, hcond, hifn]
  · intro rv gas ctx fname ftyp dflt m fb s hft hcond hifn
    simp [readFieldF, hft, hcond, hifn]
  · intro rv gas ctx fname ftyp dflt m fb s hft hcond
    simp [readFieldF, hft, hcond]
  · intro rf tyName f f2 rest ctx values s ctx2 s2 hval hrf
    simp [unpackFieldsF, hval, hrf, isEllipsis]
  · intro rf tyName f f2 rest ctx values s ctx2 v s2 hval hrf hv
    simp [unpackFieldsF, hval, hrf, hv]

/-- C6 witness: with `flag = False` the conditional field writes nothing,
reads the fallback `-1` (or the UNSET marker without a fallback, which is
then omitted from the collected values); with `flag = True` both directions
delegate to the base field. -/
theorem C6_cond_witness :
    writeFieldF wvId 4 ctxFlagFalse
        (.wrap "v" .intT .ellipsis condMetaWithFallback itemField) (.int 9) [] =
      .ok ctxFlagFalse Option.none [] ∧
    writeFieldF wvId 4 ctxFlagTrue
        (.wrap "v" .intT .ellipsis condMetaWithFallback itemField) (.int 9) [] =
      writeFieldF wvId 4 ctxFlagTrue itemField (.int 9) [] ∧
    readFieldF rvUnused 4 ctxFlagFalse
        (.wrap "v" .intT .ellipsis condMetaWithFallback itemField) ⟨[], 0⟩ =
      .ok (ctxSet ctxFlagFalse "v" (.int (-1))) (.int (-1)) ⟨[], 0⟩ ∧
    readFieldF rvUnused 4 ctxFlagFalse
        (.wrap "v" .intT .ellipsis condMetaNoFallback itemField) ⟨[], 0⟩ =
      .ok ctxFlagFalse .ellipsis ⟨[], 0⟩ ∧
    readFieldF rvUnused 4 ctxFlagTrue
        (.wrap "v" .intT .ellipsis condMetaNoFallback itemField) ⟨[], 0⟩ =
      readFieldF rvUnused 4 ctxFlagTrue itemField ⟨[], 0⟩ ∧
    unpackFieldsF (fun c _ st => RFRes.ok c .ellipsis st) "T"
        [.wrap "v" .intT .ellipsis condMetaNoFallback itemField] ctxFlagFalse []
        ⟨[], 0⟩ =
      unpackFieldsF (fun c _ st => RFRes.ok c .ellipsis st) "T" [] ctxFlagFalse []
        ⟨[], 0⟩ ∧
    unpackFieldsF (fun c _ st => RFRes.ok c (.int (-1)) st) "T"
        [.wrap "v" .intT .ellipsis condMetaWithFallback itemField] ctxFlagFalse []
        ⟨[], 0⟩ =
      unpackFieldsF (fun c _ st => RFRes.ok c (.int (-1)) st) "T" [] ctxFlagFalse
        [("v", .int (-1))] ⟨[], 0⟩ :=
  ⟨C6_cond_skip_fallback_delegate.1 wvId 4 ctxFlagFalse "v" .intT .ellipsis
      condMetaWithFallback itemField (.int 9) [] rfl rfl,
    C6_cond_skip_fallback_delegate.2.1 wvId 4 ctxFlagTrue "v" .intT .ellipsis
      condMetaWithFallback itemField (.int 9) [] rfl rfl,
    C6_cond_skip_fallback_delegate.2.2.1 rvUnused 4 ctxFlagFalse "v" .intT .ellipsis
      condMetaWithFallback itemField ⟨[], 0⟩ (.lit (.int (-1))) rfl rfl rfl,
    C6_cond_skip_fallback_delegate.2.2.2.1 rvUnused 4 ctxFlagFalse "v" .intT
      .ellipsis condMetaNoFallback itemField ⟨[], 0⟩ rfl rfl rfl,
    C6_cond_skip_fallback_delegate.2.2.2.2.1 rvUnused 4 ctxFlagTrue "v" .intT
      .ellipsis condMetaNoFallback itemField ⟨[], 0⟩ rfl rfl,
    C6_cond_skip_fallback_delegate.2.2.2.2.2.1 (fun c _ st => RFRes.ok c .ellipsis st)
      "T" (.wrap "v" .intT .ellipsis condMetaNoFallback itemField) _ [] ctxFlagFalse
      [] ⟨[], 0⟩ ctxFlagFalse ⟨[], 0⟩ rfl rfl,
    C6_cond_skip_fallback_delegate.2.2.2.2.2.2 (fun c _ st => RFRes.ok c (.int (-1)) st)
      "T" (.wrap "v" .intT .ellipsis condMetaWithFallback itemField) _ [] ctxFlagFalse
      [] ⟨[], 0⟩ ctxFlagFalse (.int (-1)) ⟨[], 0⟩ rfl rfl rfl⟩

/-- C10. A COND field whose condition evaluates to anything other than the
boolean False — including falsy values such as 0, None or the empty string
— is processed exactly as if the condition were true, on pack and on
unpack: the `is False` tests of main.py lines 142 and 227 take the
skip/fallback branch only on the boolean False itself. -/
theorem C10_cond_skips_only_on_False :
    (∀ (wv : Ctx → MetaCore → PyVal → ByteStr → PRes PyVal) (gas : Nat) (ctx : Ctx)
        (fname : String) (ftyp : PyType) (dflt : PyVal) (m : MetaCore)
        (fb : FieldRec) (value : PyVal) (out : ByteStr) (v : PyVal),
        m.ftype = .COND →
        evaluate ctx m.condition = v →
        v ≠ .bool false →
        writeFieldF wv gas ctx (.wrap fname ftyp dflt m fb) value out =
          writeFieldF wv gas ctx fb value out) ∧
    (∀ (rv : Ctx → MetaCore → PyType → RStream → URes PyVal) (gas : Nat) (ctx : Ctx)
        (fname : String) (ftyp : PyType) (dflt : PyVal) (m : MetaCore)
        (fb : FieldRec) (s : RStream) (v : PyVal),
        m.ftype = .COND →
        evaluate ctx m.condition = v →
        v ≠ .bool false →
        readFieldF rv gas ctx (.wrap fname ftyp dflt m fb) s =
          readFieldF rv gas ctx fb s) ∧
    (∀ (wv : Ctx → MetaCore → PyVal → ByteStr → PRes PyVal) (gas : Nat) (ctx : Ctx)
        (fname : String) (ftyp : PyType) (dflt : PyVal) (m : MetaCore)
        (fb : FieldRec) (value : PyVal) (out : ByteStr),
        m.ftype = .COND →
        evaluate ctx m.condition = .bool false →
        writeFieldF wv gas ctx (.wrap fname ftyp dflt m fb) value out =
          .ok ctx Option.none out) := by
  refine ⟨?_, ?_, ?_⟩
  · intro wv gas ctx fname ftyp dflt m fb value out v hft hcond hv
    cases v with
    | bool b =>
      cases b with
      | false => exact absurd rfl hv
      | true => simp [writeFieldF, hft, hcond]
    | _ => simp [writeFieldF, hft, hcond]
  · intro rv gas ctx fname ftyp dflt m fb s v hft hcond hv
    cases v with
    | bool b =>
      cases b with
      | false => exact absurd rfl hv
      | true => simp [readFieldF, hft, hcond]
    | _ => simp [readFieldF, hft, hcond]
  · intro wv gas ctx fname ftyp dflt m fb value out hft hcond
    simp [writeFieldF, hft, hcond]

/-- C10 witness: with the condition evaluating to the falsy 0 (not the
boolean False), pack and unpack both delegate to the base field; with the
boolean False, pack skips. -/
theorem C10_cond_zero_witness :
    writeFieldF wvId 4 ctxP (.wrap "v" .intT .ellipsis condMetaZero itemField)
        (.int 9) [] =
      writeFieldF wvId 4 ctxP itemField (.int 9) [] ∧
    readFieldF rvUnused 4 ctxU (.wrap "v" .intT .ellipsis condMetaZero itemField)
        ⟨[], 0⟩ =
      readFieldF rvUnused 4 ctxU itemField ⟨[], 0⟩ ∧
    writeFieldF wvId 4 ctxFlagFalse
        (.wrap "v" .intT .ellipsis condMetaWithFallback itemField) (.int 9) [] =
      .ok ctxFlagFalse Option.none [] :=
  ⟨C10_cond_skips_only_on_False.1 wvId 4 ctxP "v" .intT .ellipsis condMetaZero
      itemField (.int 9) [] (.int 0) rfl rfl (by simp),
    C10_cond_skips_only_on_False.2.1 rvUnused 4 ctxU "v" .intT .ellipsis condMetaZero
      itemField ⟨[], 0⟩ (.int 0) rfl rfl (by simp),
    C10_cond_skips_only_on_False.2.2 wvId 4 ctxFlagFalse "v" .intT .ellipsis
      condMetaWithFallback itemField (.int 9) [] rfl rfl⟩

/-- C8. Byte-run fields: with a format resolving to a non-negative integer
`n`, pack requires a byte value of length at least `n` — raising the
short-buffer value error (writing nothing) when it is shorter and writing
exactly the first `n` bytes when it is longer — and unpack reads exactly
`n` bytes, raising the short-read value error when fewer are available. -/
theorem C8_byte_run_fields :
    (∀ (pr : String → List (String × PyVal) → Ctx → ByteStr →
          PRes (List (String × PyVal))) (ctx : Ctx) (m : MetaCore) (bs : ByteStr)
        (n : Int) (out : ByteStr),
        m.builder = Option.none →
        m.fmt = some (.lit (.size n)) →
        0 ≤ n →
        (bs.length : Int) < n →
        writeValueF pr ctx m (.bytes bs) out =
          .err ⟨.valueError,
            "Not enough bytes to write: " ++ toString bs.length ++ " < " ++
              toString n⟩ out) ∧
    (∀ (pr : String → List (String × PyVal) → Ctx → ByteStr →
          PRes (List (String × PyVal))) (ctx : Ctx) (m : MetaCore) (bs : ByteStr)
        (n : Int) (out : ByteStr),
        m.builder = Option.none →
        m.fmt = some (.lit (.size n)) →
        0 ≤ n →
        n ≤ (bs.length : Int) →
        writeValueF pr ctx m (.bytes bs) out =
          .ok (.bytes bs) (out ++ bs.take n.toNat)) ∧
    (∀ (ur : String → Ctx → RStream → URes PyVal) (ctx : Ctx) (m : MetaCore)
        (typ : PyType) (s : RStream) (n : Int),
        isStructT typ = false →
        m.fmt = some (.lit (.size n)) →
        0 ≤ n →
        n.toNat ≤ (s.data.drop s.pos).length →
        readValueF ur ctx m typ s =
          .ok (.bytes ((s.data.drop s.pos).take n.toNat)) ⟨s.data, s.pos + n.toNat⟩) ∧
    (∀ (ur : String → Ctx → RStream → URes PyVal) (ctx : Ctx) (m : MetaCore)
        (typ : PyType) (s : RStream) (n : Int),
        isStructT typ = false →
        m.fmt = some (.lit (.size n)) →
        0 ≤ n →
        ((s.data.drop s.pos).length : Int) < n →
        readValueF ur ctx m typ s =
          .err ⟨.valueError,
            "Not enough bytes to read: " ++ toString (s.data.drop s.pos).length ++
              " < " ++ toString n⟩
            ⟨s.data, s.pos + (s.data.drop s.pos).length⟩) := by
  refine ⟨?_, ?_, ?_, ?_⟩
  · intro pr ctx m bs n out hb hfmt hn hlen
    simp [writeValueF, hb, fmt_evaluate, hfmt, evalOf, pyLen, hlen]
  · intro pr ctx m bs n out hb hfmt hn hlen
    have hguard : ¬ ((bs.length : Int) < n) := not_lt.mpr hlen
    simp [writeValueF, hb, fmt_evaluate, hfmt, evalOf, pyLen, hguard, pySliceTo, hn]
  · intro ur ctx m typ s n hstruct hfmt hn hav
    have hnn : ¬ (n < 0) := not_lt.mpr hn
    have hav2 : n.toNat ≤ s.data.length - s.pos := by simpa using hav
    have hmin : min n.toNat (s.data.length - s.pos) = n.toNat := by omega
    cases typ
    case structT => simp [isStructT] at hstruct
    all_goals
      simp [readValueF, fmt_evaluate, hfmt, evalOf, rread, hnn, hmin,
        Int.toNat_of_nonneg hn]
  · intro ur ctx m typ s n hstruct hfmt hn hav
    have hnn : ¬ (n < 0) := not_lt.mpr hn
    have havI : ((s.data.length - s.pos : Nat) : Int) < n := by simpa using hav
    have hlt : s.data.length - s.pos < n.toNat := by omega
    have hmin : min n.toNat (s.data.length - s.pos) = s.data.length - s.pos := by
      omega
    cases typ
    case structT => simp [isStructT] at hstruct
    all_goals
      simp [readValueF, fmt_evaluate, hfmt, evalOf, rread, hnn, hmin, havI]

/-- C8 witness: with format 2, packing a 1-byte value raises the
short-buffer error writing nothing, packing a 3-byte value writes its first
2 bytes, unpacking from 3 available bytes reads exactly 2, and unpacking
from 1 available byte raises the short-read error. -/
theorem C8_byte_run_witness :
    writeValueF (fun _ _ _ o => PRes.err ⟨.unmodelled, "unused"⟩ o) ctxP innerXMeta
        (.bytes [7]) [9] =
      .err ⟨.valueError, "Not enough bytes to write: 1 < 2"⟩ [9] ∧
    writeValueF (fun _ _ _ o => PRes.err ⟨.unmodelled, "unused"⟩ o) ctxP innerXMeta
        (.bytes [1, 2, 3]) [9] =
      .ok (.bytes [1, 2, 3]) [9, 1, 2] ∧
    readValueF (fun _ _ st => URes.err ⟨.unmodelled, "unused"⟩ st) ctxU innerXMeta
        .bytesT ⟨[1, 2, 3], 0⟩ =
      .ok (.bytes [1, 2]) ⟨[1, 2, 3], 2⟩ ∧
    readValueF (fun _ _ st => URes.err ⟨.unmodelled, "unused"⟩ st) ctxU innerXMeta
        .bytesT ⟨[1], 0⟩ =
      .err ⟨.valueError, "Not enough bytes to read: 1 < 2"⟩ ⟨[1], 1⟩ :=
  ⟨C8_byte_run_fields.1 (fun _ _ _ o => PRes.err ⟨.unmodelled, "unused"⟩ o) ctxP
      innerXMeta [7] 2 [9] rfl rfl (by decide) (by decide),
    C8_byte_run_fields.2.1 (fun _ _ _ o => PRes.err ⟨.unmodelled, "unused"⟩ o) ctxP
      innerXMeta [1, 2, 3] 2 [9] rfl rfl (by decide) (by decide),
    C8_byte_run_fields.2.2.1 (fun _ _ st => URes.err ⟨.unmodelled, "unused"⟩ st) ctxU
      innerXMeta .bytesT ⟨[1, 2, 3], 0⟩ 2 rfl rfl (by decide) (by decide),
    C8_byte_run_fields.2.2.2 (fun _ _ st => URes.err ⟨.unmodelled, "unused"⟩ st) ctxU
      innerXMeta .bytesT ⟨[1], 0⟩ 2 rfl rfl (by decide) (by decide)⟩
